import Mathlib

/-!
Shallow embedding of the export pipeline of the marp-vscode (Extended)
extension, covering:

* `src/marp-cli.ts`: `createWorkFile`, `createConfigFile`, `runMarpCli`
  and the `MarpCLIError` classification;
* `option.ts` (shipped unnamed in the repository snapshot):
  `marpCoreOptionForCLI`, in particular its per-theme resolution of the
  `themes.loadStyles` promises into `WorkFile` values;
* `commands/export.ts` (shipped unnamed): `doExport`, the orchestration
  that decides on the workspace proxy server, materializes the document,
  builds the config file, invokes the CLI and performs cleanup.

External effects are parameterized by oracles carried in an environment
record: success or failure of each file write, the workspace folder lookup,
the generated nanoid tokens, the OS temp directory, the outcome of each
`themes.loadStyles` promise, and the outcome of the Marp CLI invocation.
The embedded functions return explicit traces (attempted writes, release
actions, invocation counts) describing the effects the translated code
performs on those oracles.
-/

deriving instance DecidableEq for Except

namespace MarpVscode

/-- Splits a character list at every occurrence of a separator character.
The result is never empty. Used to model the Node `path` helpers. -/
def splitOnChar (sep : Char) : List Char → List (List Char)
  | [] => [[]]
  | c :: cs =>
    let r := splitOnChar sep cs
    if c = sep then [] :: r
    else (c :: r.headD []) :: r.tail

/-- Characters of `path.basename`: the segment after the last slash. -/
def basenameChars (p : List Char) : List Char :=
  (splitOnChar '/' p).getLastD []

/-- `path.extname` on the basename characters: the suffix starting at the
last dot, and empty for names with no dot and for pure dotfiles. -/
def extnameOfBase (b : List Char) : List Char :=
  match splitOnChar '.' b with
  | [] => []
  | [_] => []
  | x :: rest =>
    if x.isEmpty && rest.length == 1 then [] else '.' :: rest.getLastD []

/-- Models the expression `path.extname(uri.path).replace(/^\./, '')`
appearing at the top of `doExport`. -/
def extnameNoDot (p : String) : String :=
  match extnameOfBase (basenameChars p.data) with
  | '.' :: r => ⟨r⟩
  | l => ⟨l⟩

/-- Node `path.join` for a directory and a fresh file name (every call site
in the translated code joins a directory with a generated file name). -/
def pathJoin (a b : String) : String := a ++ "/" ++ b

/-- Node `path.dirname` for ordinary paths: everything before the final
slash, and "." when the path contains no slash. -/
def pathDirname (p : String) : String :=
  let groups := splitOnChar '/' p.data
  if groups.length ≤ 1 then "."
  else ⟨(groups.dropLast.intersperse ['/']).flatten⟩

/-- Model of a VS Code workspace folder: its URI scheme, its filesystem
path and its display name. -/
structure WorkspaceFolder where
  scheme : String
  fsPath : String
  name : String
deriving DecidableEq

/-- Model of a VS Code text document: its URI scheme, its dirty flag, the
filesystem path of its URI, and its current text. -/
structure TextDocument where
  scheme : String
  isDirty : Bool
  fsPath : String
  text : String
deriving DecidableEq

/-- A release action of a work file: either the no-op
`() => Promise.resolve()` or `() => promiseUnlink(target)`. -/
inductive Cleanup where
  | noop : Cleanup
  | unlinkFile (path : String) : Cleanup
deriving DecidableEq

/-- The `WorkFile` interface of `option.ts`: a path plus a release
action. -/
structure WorkFile where
  path : String
  cleanup : Cleanup
deriving DecidableEq

/-- The file deletions a single release action attempts. -/
def cleanupAttempts : Cleanup → List String
  | .noop => []
  | .unlinkFile p => [p]

/-- Runs one release action against a deletion oracle, returning the
attempted deletions and whether the action succeeded. The unlink call is
issued regardless of whether it will succeed. -/
def runCleanup (delOk : String → Bool) : Cleanup → List String × Bool
  | .noop => ([], true)
  | .unlinkFile p => ([p], delOk p)

/-- `Promise.all` over a list of release actions, as in the composite
cleanup built by `createConfigFile`: every promise in the array literal is
started eagerly before `Promise.all` settles, so every deletion is
attempted even when some of them fail. -/
def runCleanupAll (delOk : String → Bool) (cs : List Cleanup) : List String × Bool :=
  ((cs.map (runCleanup delOk)).flatMap Prod.fst,
    (cs.map (runCleanup delOk)).all Prod.snd)

/-- The theme classification of `themes.ts` as seen by
`marpCoreOptionForCLI`. -/
inductive ThemeType where
  | File : ThemeType
  | Remote : ThemeType
deriving DecidableEq

/-- A resolved theme delivered by a `themes.loadStyles` promise. -/
structure Theme where
  type : ThemeType
  path : String
  css : String
deriving DecidableEq

/-- Outcome of one `themes.loadStyles` promise: a resolved theme, or a
rejection whose reason is logged by the handler `e => console.error(e)`. -/
inductive ThemeOutcome where
  | ok (t : Theme) : ThemeOutcome
  | err (e : String) : ThemeOutcome
deriving DecidableEq

/-- Oracle environment for one export invocation. Function-valued fields
describe how the outside world answers each effect the code performs. -/
structure Env where
  /-- Whether `promiseWriteFile` at a given path succeeds. -/
  writeOk : String → Bool
  /-- Whether the `promiseWriteFile` of the serialized config succeeds. -/
  confWriteOk : Bool
  /-- Whether the temp write of the i-th remote theme succeeds. -/
  themeWriteOk : Nat → Bool
  /-- The `nanoid()` token drawn by `createWorkFile`. -/
  nanoid : String
  /-- The `nanoid()` token drawn by `createConfigFile`. -/
  confNanoid : String
  /-- The `nanoid()` token drawn for the i-th theme resolution. -/
  themeNanoid : Nat → String
  /-- `os.tmpdir()`. -/
  tmpdir : String
  /-- `workspace.getWorkspaceFolder(document.uri)`. -/
  getWorkspaceFolder : Option WorkspaceFolder
  /-- Outcomes of the `themes.loadStyles` promises, in order. -/
  themeOutcomes : List ThemeOutcome
  /-- The `markdown.marp.breaks` setting. -/
  breaksSetting : String
  /-- The inherited `markdown.preview.breaks` value. -/
  previewBreaks : Bool
  /-- The `markdown.marp.enableHtml` setting. -/
  enableHtml : Bool
  /-- The `markdown.marp.enableExtensionAttrs` setting. -/
  enableExtensionAttrs : Bool
  /-- Whether the `marpCli` invocation inside `doExport` rejects. -/
  marpCliThrows : Bool

/-- The temp file name `".marp-vscode-tmp-" + nanoid()` of
`createWorkFile`. -/
def workFileTmpName (env : Env) : String :=
  ".marp-vscode-tmp-" ++ env.nanoid

/-- The same-directory candidate path of `createWorkFile`. -/
def sameDirTmpPath (env : Env) (doc : TextDocument) : String :=
  pathJoin (pathDirname doc.fsPath) (workFileTmpName env)

/-- The workspace-root candidate path of `createWorkFile`. -/
def workspaceTmpPath (env : Env) (w : WorkspaceFolder) : String :=
  pathJoin w.fsPath (workFileTmpName env)

/-- The OS temp directory candidate path of `createWorkFile`. -/
def osTmpPath (env : Env) : String :=
  pathJoin env.tmpdir (workFileTmpName env)

/-- The final fallback of `createWorkFile`: write to the OS temp
directory; a failure there is not caught and rejects the call. The first
component collects the attempted writes (path and content) in order. -/
def osTmpStep (env : Env) (text : String) (tr : List (String × String)) :
    List (String × String) × Except Unit WorkFile :=
  let p := osTmpPath env
  if env.writeOk p then (tr ++ [(p, text)], .ok ⟨p, .unlinkFile p⟩)
  else (tr ++ [(p, text)], .error ())

/-- Translation of `createWorkFile` in `marp-cli.ts`: a real unmodified
file is used directly with a no-op release; otherwise the document text is
written to a uniquely named temp file next to the document, then (when the
document workspace folder has the file scheme) at the workspace root, then
in the OS temp directory, swallowing the first two failures and letting
the last one propagate. The first component lists the attempted writes. -/
def createWorkFile (env : Env) (doc : TextDocument) :
    List (String × String) × Except Unit WorkFile :=
  if doc.scheme = "file" ∧ doc.isDirty = false then
    ([], .ok ⟨doc.fsPath, .noop⟩)
  else
    let text := doc.text
    let p1 := sameDirTmpPath env doc
    if env.writeOk p1 then ([(p1, text)], .ok ⟨p1, .unlinkFile p1⟩)
    else
      match env.getWorkspaceFolder with
      | some w =>
        if w.scheme = "file" then
          let p2 := workspaceTmpPath env w
          if env.writeOk p2 then
            ([(p1, text), (p2, text)], .ok ⟨p2, .unlinkFile p2⟩)
          else osTmpStep env text [(p1, text), (p2, text)]
        else osTmpStep env text [(p1, text)]
      | none => osTmpStep env text [(p1, text)]

/-- The ordered candidate locations the fallback chain of `createWorkFile`
can write to for a dirty or non-file document. -/
def cwfCandidates (env : Env) (doc : TextDocument) : List String :=
  sameDirTmpPath env doc ::
    ((match env.getWorkspaceFolder with
      | some w => if w.scheme = "file" then [workspaceTmpPath env w] else []
      | none => []) ++ [osTmpPath env])

/-- The locations a first-success fallback chain attempts: every failing
candidate before the first writable one, then that writable candidate, and
all candidates when none is writable. -/
def attemptedWrites (ok : String → Bool) (cands : List String) : List String :=
  cands.takeWhile (fun p => !ok p) ++ (cands.find? ok).toList

/-- The generated temp path of the i-th remote theme,
`path.join(tmpdir(), ".marp-vscode-cli-theme-" + nanoid() + ".css")`. -/
def themeTmpPath (env : Env) (i : Nat) : String :=
  pathJoin env.tmpdir (".marp-vscode-cli-theme-" ++ env.themeNanoid i ++ ".css")

/-- Translation of the fulfillment and rejection handlers attached to one
`themes.loadStyles` promise inside `marpCoreOptionForCLI`: a rejection is
logged and yields no work file (`.ok none` after filtering), a file theme
yields its own path with a no-op release, and a remote theme is written to
a generated temp path whose release unlinks it; only that temp write can
reject the handled promise. -/
def resolveTheme (env : Env) (i : Nat) : ThemeOutcome → Except Unit (Option WorkFile)
  | .err _ => .ok none
  | .ok t =>
    match t.type with
    | .File => .ok (some ⟨t.path, .noop⟩)
    | .Remote =>
      if env.themeWriteOk i then
        .ok (some ⟨themeTmpPath env i, .unlinkFile (themeTmpPath env i)⟩)
      else .error ()

/-- The list of handled theme promises, with the index of each resolution
tracking its own `nanoid()` draw. -/
def resolveThemesAux (env : Env) : Nat → List ThemeOutcome → List (Except Unit (Option WorkFile))
  | _, [] => []
  | i, o :: rest => resolveTheme env i o :: resolveThemesAux env (i + 1) rest

/-- The theme work files that come into existence: each handled promise is
independent, so every successful resolution produces its work file even
when a sibling promise rejects. -/
def createdThemesFrom (env : Env) (i : Nat) (outs : List ThemeOutcome) : List WorkFile :=
  (resolveThemesAux env i outs).filterMap
    (fun r => match r with | .ok (some w) => some w | _ => none)

/-- `Promise.all` over the handled theme promises followed by the
`.filter((w): w is WorkFile => !!w)` of the source: the joint await
rejects when any handled promise rejects, and otherwise yields the
resolved work files with the dropped themes filtered out. -/
def resolveThemesFrom (env : Env) (i : Nat) (outs : List ThemeOutcome) :
    Except Unit (List WorkFile) :=
  if (resolveThemesAux env i outs).all
      (fun r => match r with | .error _ => false | _ => true) then
    .ok (createdThemesFrom env i outs)
  else .error ()

/-- The messages passed to `console.error` by the rejection handlers, in
promise order. -/
def themeLogs : List ThemeOutcome → List String
  | [] => []
  | .err e :: rest => e :: themeLogs rest
  | .ok _ :: rest => themeLogs rest

/-- Number of rejected `themes.loadStyles` promises. -/
def countThemeErr : List ThemeOutcome → Nat
  | [] => 0
  | .err _ :: rest => countThemeErr rest + 1
  | .ok _ :: rest => countThemeErr rest

/-- The `breaks` helper of `option.ts`: "off" disables line breaks,
"inherit" forwards the inherited preview value, anything else enables
them. -/
def breaksFromSetting (setting : String) (inheritedValue : Bool) : Bool :=
  if setting = "off" then false
  else if setting = "inherit" then inheritedValue
  else true

/-- The options object serialized by `createConfigFile`, as assembled by
`marpCoreOptionForCLI` (the `vscode.themeFiles` field carries the theme
work files so the composite release can reach them). -/
structure CliOpts where
  allowLocalFiles : Bool
  html : Option Bool
  extensionAttrs : Option Bool
  markdownBreaks : Bool
  themeSet : List String
  themeFiles : List WorkFile
deriving DecidableEq

/-- Translation of `marpCoreOptionForCLI` in `option.ts`: builds the base
options (note the unconditional `allowLocalFiles: true`), resolves the
themes, and stores the resolved paths in `themeSet` and the work files in
`vscode.themeFiles`. The document argument carries the URI the source
reads; the configuration reads are taken from the environment. -/
def marpCoreOptionForCLI (env : Env) (_doc : TextDocument) : Except Unit CliOpts :=
  match resolveThemesFrom env 0 env.themeOutcomes with
  | .error _ => .error ()
  | .ok themeFiles =>
    .ok { allowLocalFiles := true,
          html := if env.enableHtml then some true else none,
          extensionAttrs := if env.enableExtensionAttrs then some true else none,
          markdownBreaks := breaksFromSetting env.breaksSetting env.previewBreaks,
          themeSet := themeFiles.map WorkFile.path,
          themeFiles := themeFiles }

/-- The work file returned by `createConfigFile`: its path, the serialized
options, and its composite release, run as one `Promise.all`. -/
structure ConfigWorkFile where
  path : String
  content : CliOpts
  cleanup : List Cleanup
deriving DecidableEq

/-- Full outcome of a `createConfigFile` call: the theme work files that
were created while building the options (they exist even when a later step
rejects), and the returned config work file or the rejection. -/
structure ConfigFileOutcome where
  themeFilesCreated : List WorkFile
  result : Except Unit ConfigWorkFile
deriving DecidableEq

/-- Translation of `createConfigFile` in `marp-cli.ts`. The declared
signature takes only the target document; the second argument models the
extra options object some callers pass, which JavaScript silently drops,
so the body never consults it. The composite release unlinks the config
file and runs every theme release inside one `Promise.all`. -/
def createConfigFile (env : Env) (target : TextDocument) (_ignoredArg : Option Bool) :
    ConfigFileOutcome :=
  let tmpPath := pathJoin env.tmpdir (".marp-vscode-cli-conf-" ++ env.confNanoid ++ ".json")
  let created := createdThemesFrom env 0 env.themeOutcomes
  match marpCoreOptionForCLI env target with
  | .error _ => ⟨created, .error ()⟩
  | .ok cliOpts =>
    if env.confWriteOk then
      ⟨created,
        .ok ⟨tmpPath, cliOpts,
          .unlinkFile tmpPath :: cliOpts.themeFiles.map WorkFile.cleanup⟩⟩
    else ⟨created, .error ()⟩

/-- The extension list `[...pdf, ...pptx, ...png, ...jpeg]` that forces a
Chromium-backed conversion, from `commands/export.ts`. -/
def chromiumRequiredExtensions : List String :=
  ["pdf", "pptx", "png", "jpg", "jpeg"]

/-- Observable trace of one `doExport` invocation: how many times the
proxy server was created and disposed, which work files were created, how
many times each release was invoked, and the user-visible outcome. -/
structure ExportResult where
  proxyCreations : Nat
  proxyDisposals : Nat
  inputFile : Option WorkFile
  inputCleanupRuns : Nat
  confFile : Option ConfigWorkFile
  confCleanupRuns : Nat
  themeFilesCreated : List WorkFile
  /-- Invocation count of the release of each created theme work file:
  the composite config release invokes each exactly once per run, and no
  other code path reaches them. -/
  themeCleanupRuns : Nat
  openedExternal : Bool
  errorShown : Bool
  threw : Bool
deriving DecidableEq

/-- Translation of `doExport` in `commands/export.ts`: the proxy decision
from the target extension and the document scheme, the nested
try/catch/finally structure around `createWorkFile`, `createConfigFile`
and `marpCli`, the error message shown on a caught failure, and the
`finally` handlers that release the config file, the input file and the
proxy server. -/
def doExport (env : Env) (uriPath : String) (document : TextDocument) : ExportResult :=
  let ext := extnameNoDot uriPath
  let shouldProvideWorkspaceProxyServer :=
    chromiumRequiredExtensions.contains ext &&
      !(["file", "untitled"].contains document.scheme)
  let proxyCreated :=
    shouldProvideWorkspaceProxyServer && env.getWorkspaceFolder.isSome
  let pc := if proxyCreated then 1 else 0
  match (createWorkFile env document).2 with
  | .error _ =>
    { proxyCreations := pc, proxyDisposals := pc, inputFile := none,
      inputCleanupRuns := 0, confFile := none, confCleanupRuns := 0,
      themeFilesCreated := [], themeCleanupRuns := 0,
      openedExternal := false, errorShown := false, threw := true }
  | .ok input =>
    let c := createConfigFile env document (some (!proxyCreated))
    match c.result with
    | .error _ =>
      { proxyCreations := pc, proxyDisposals := pc, inputFile := some input,
        inputCleanupRuns := 1, confFile := none, confCleanupRuns := 0,
        themeFilesCreated := c.themeFilesCreated, themeCleanupRuns := 0,
        openedExternal := false, errorShown := true, threw := false }
    | .ok conf =>
      if env.marpCliThrows then
        { proxyCreations := pc, proxyDisposals := pc, inputFile := some input,
          inputCleanupRuns := 1, confFile := some conf, confCleanupRuns := 1,
          themeFilesCreated := c.themeFilesCreated, themeCleanupRuns := 1,
          openedExternal := false, errorShown := true, threw := false }
      else
        { proxyCreations := pc, proxyDisposals := pc, inputFile := some input,
          inputCleanupRuns := 1, confFile := some conf, confCleanupRuns := 1,
          themeFilesCreated := c.themeFilesCreated, themeCleanupRuns := 1,
          openedExternal := true, errorShown := false, threw := false }

/-- Structured errors crossing the `runMarpCli` boundary: the `CLIError`
of the marp-cli package with its error code, any other structured error
with its name, and the `MarpCLIError` raised by `marp-cli.ts` itself. -/
inductive JsError where
  | cliError (errorCode : String) (message : String) : JsError
  | otherError (name : String) (message : String) : JsError
  | marpCLIError (message : String) : JsError
deriving DecidableEq

/-- Oracle environment for one `runMarpCli` call: the configured
`markdown.marp.chromePath` value (its package.json default is the empty
string, which is falsy), the `process.platform` value, and the outcome of
the inner `marpCli(argv)` call: an exit code or a thrown error. -/
structure CliEnv where
  chromePathConfig : String
  platform : String
  marpCliOutcome : Except JsError Int
deriving DecidableEq

/-- Assignment to an entry of `process.env` in Node: the assigned value is
implicitly converted to a string, so assigning the JS value `undefined`
stores the literal string "undefined" rather than unsetting the entry. -/
def envAssign (v : Option String) : Option String :=
  some (v.getD "undefined")

/-- The user-actionable message built when marp-cli reports that no
rendering browser was found; the alternate browser is mentioned exactly
when `process.platform === 'linux'`. -/
def notFoundChromiumMessage (platform : String) : String :=
  "It requires to install [Google Chrome](https://www.google.com/chrome/)" ++
    (if platform = "linux" then " or [Chromium](https://www.chromium.org/)" else "") ++
    " for exporting."

/-- The generic failure message for a non-zero exit code. -/
def exitCodeMessage (code : Int) : String :=
  "Marp CLI throwed unexpected error with exit code " ++ toString code ++ "."

/-- Observable outcome of one `runMarpCli` call: the `CHROME_PATH` entry
while `marpCli` runs, the entry after the call returns or throws, and the
settled result. -/
structure RunResult where
  envDuring : Option String
  envAfter : Option String
  result : Except JsError Unit
deriving DecidableEq

/-- Translation of `runMarpCli` in `marp-cli.ts`. `chromePath0` is the
`CHROME_PATH` entry of `process.env` on entry (`none` when unset), saved
by the destructuring before the try block. The try block assigns the
configured override or the saved value, the finally block assigns the
saved value back on every path, and both assignments go through the Node
string coercion `envAssign`. A zero exit code resolves, a non-zero exit
code raises `MarpCLIError` carrying the code, the `NOT_FOUND_CHROMIUM`
error code of a caught `CLIError` is translated to the installation hint,
and any other caught error is rethrown unchanged. -/
def runMarpCli (env : CliEnv) (chromePath0 : Option String) : RunResult :=
  let savedChromePath := chromePath0
  let envDuring :=
    envAssign (if env.chromePathConfig = "" then savedChromePath
               else some env.chromePathConfig)
  let envAfter := envAssign savedChromePath
  match env.marpCliOutcome with
  | .error e =>
    match e with
    | .cliError code _ =>
      if code = "NOT_FOUND_CHROMIUM" then
        ⟨envDuring, envAfter, .error (.marpCLIError (notFoundChromiumMessage env.platform))⟩
      else ⟨envDuring, envAfter, .error e⟩
    | _ => ⟨envDuring, envAfter, .error e⟩
  | .ok exitCode =>
    if exitCode ≠ 0 then
      ⟨envDuring, envAfter, .error (.marpCLIError (exitCodeMessage exitCode))⟩
    else ⟨envDuring, envAfter, .ok ()⟩

/-- Whether a pattern character sequence occurs at the start of a text. -/
def startsWithSeq : List Char → List Char → Bool
  | [], _ => true
  | _ :: _, [] => false
  | p :: ps, c :: cs => p == c && startsWithSeq ps cs

/-- Whether a pattern character sequence occurs anywhere in a text. -/
def containsSeq (pat : List Char) : List Char → Bool
  | [] => startsWithSeq pat []
  | c :: cs => startsWithSeq pat (c :: cs) || containsSeq pat cs

/-- Whether a message mentions the alternate browser name. -/
def mentionsChromium (s : String) : Bool :=
  containsSeq "Chromium".data s.data

/-- A configured remote theme whose fetch succeeds. -/
def remoteThemeOutcome : ThemeOutcome :=
  .ok ⟨.Remote, "https://example.com/a.css", "section" ⟩

/-- A benign concrete environment: every write succeeds, a file-scheme
workspace folder resolves, there are no configured themes, and the CLI
invocation succeeds. -/
def baseEnv : Env :=
  { writeOk := fun _ => true, confWriteOk := true,
    themeWriteOk := fun _ => true, nanoid := "n1", confNanoid := "n2",
    themeNanoid := fun i => "t" ++ toString i, tmpdir := "/tmp",
    getWorkspaceFolder := some ⟨"file", "/ws", "ws"⟩, themeOutcomes := [],
    breaksSetting := "on", previewBreaks := false, enableHtml := false,
    enableExtensionAttrs := false, marpCliThrows := false }

/-- A clean document backed by a real file. -/
def cleanDoc : TextDocument := ⟨"file", false, "/docs/deck.md", "# deck"⟩

/-- A dirty document backed by a real file. -/
def dirtyDoc : TextDocument := ⟨"file", true, "/docs/deck.md", "# deck"⟩

/-- An untitled document, never saved to disk. -/
def untitledDoc : TextDocument := ⟨"untitled", true, "Untitled-1", "# deck"⟩

/-- A document on a virtual filesystem scheme. -/
def virtualDoc : TextDocument := ⟨"vscode-vfs", true, "/v/deck.md", "# deck"⟩

/-- Environment of the C1 counterexample: one remote theme resolves and is
written to the OS temp directory, and then the write of the serialized
config file fails, so `createConfigFile` rejects after the theme work file
exists. -/
def c1CexEnv : Env :=
  { baseEnv with themeOutcomes := [remoteThemeOutcome], confWriteOk := false }

/-- Claim C1 as stated, at one invocation of `doExport`: every created
work file (input, config, and the theme work files the config owns) has
its release invoked exactly once, and the proxy server is disposed exactly
once when created. -/
def c1ClaimAt (env : Env) (u : String) (d : TextDocument) : Prop :=
  ((doExport env u d).inputFile.isSome = true → (doExport env u d).inputCleanupRuns = 1) ∧
    ((doExport env u d).confFile.isSome = true → (doExport env u d).confCleanupRuns = 1) ∧
    ((doExport env u d).themeFilesCreated ≠ [] → (doExport env u d).themeCleanupRuns = 1) ∧
    ((doExport env u d).proxyCreations = 1 → (doExport env u d).proxyDisposals = 1)

/-- Condition (a) and (b) and (c) of claim C2, with (b) read as the spec
words state it: the document is not backed by a real local file, that is,
its scheme is virtual or untitled (anything other than file). -/
def c2SpecCreatesProxy (env : Env) (u : String) (d : TextDocument) : Prop :=
  chromiumRequiredExtensions.contains (extnameNoDot u) = true ∧
    d.scheme ≠ "file" ∧ env.getWorkspaceFolder.isSome = true

/-- Claim C2 as stated, at one invocation of `doExport`: the proxy server
is created if and only if the three spec conditions hold. -/
def c2ClaimAt (env : Env) (u : String) (d : TextDocument) : Prop :=
  (doExport env u d).proxyCreations = 1 ↔ c2SpecCreatesProxy env u d

/-- Environment of the C4 witness: the same-directory write is denied and
the workspace-root write succeeds. -/
def c4WitnessEnv : Env :=
  { baseEnv with writeOk := fun p => !(p == "/docs/.marp-vscode-tmp-n1") }

/-- Environment of the C6 witness: one local file theme resolves and one
remote theme fetch fails. -/
def c6WitnessEnv : Env :=
  { baseEnv with
    themeOutcomes := [.ok ⟨.File, "/ws/a.css", "section" ⟩, .err "fetch failed"] }

/-- Environment of the C7 and C10 witnesses: one remote theme resolves and
the config write succeeds. -/
def c7WitnessEnv : Env :=
  { baseEnv with themeOutcomes := [remoteThemeOutcome] }

/-- The config work file `createConfigFile` returns in `c7WitnessEnv`. -/
def c7Conf : ConfigWorkFile :=
  ⟨"/tmp/.marp-vscode-cli-conf-n2.json",
    { allowLocalFiles := true, html := none, extensionAttrs := none,
      markdownBreaks := true,
      themeSet := ["/tmp/.marp-vscode-cli-theme-t0.css"],
      themeFiles := [⟨"/tmp/.marp-vscode-cli-theme-t0.css",
        .unlinkFile "/tmp/.marp-vscode-cli-theme-t0.css"⟩] },
    [.unlinkFile "/tmp/.marp-vscode-cli-conf-n2.json",
      .unlinkFile "/tmp/.marp-vscode-cli-theme-t0.css"]⟩

/-- CLI environment of the C3 failing input: no configured override, and a
successful renderer run. -/
def c3Env : CliEnv := ⟨"", "linux", .ok 0⟩

/-- CLI environment of the C8 witness: the renderer returns exit code 3
without throwing. -/
def c8WitnessEnv : CliEnv := ⟨"", "linux", .ok 3⟩

/-- CLI environment of the C9 witness: the renderer throws the structured
browser-not-found error on Linux. -/
def c9WitnessEnv : CliEnv :=
  ⟨"", "linux", .error (.cliError "NOT_FOUND_CHROMIUM" "no chrome")⟩

theorem runCleanup_fst (delOk : String → Bool) (c : Cleanup) :
    (runCleanup delOk c).1 = cleanupAttempts c := by
  cases c <;> rfl

theorem runCleanupAll_fst (delOk : String → Bool) (cs : List Cleanup) :
    (runCleanupAll delOk cs).1 = cs.flatMap cleanupAttempts := by
  induction cs with
  | nil => rfl
  | cons c rest ih =>
    show (runCleanup delOk c).1 ++ (runCleanupAll delOk rest).1 =
      cleanupAttempts c ++ rest.flatMap cleanupAttempts
    rw [ih, runCleanup_fst]

theorem flatMap_map_cleanup (ws : List WorkFile) :
    (ws.map WorkFile.cleanup).flatMap cleanupAttempts =
      ws.flatMap (fun w => cleanupAttempts w.cleanup) := by
  induction ws with
  | nil => rfl
  | cons w rest ih => simp [ih]

theorem marpCoreOptionForCLI_allowLocalFiles (env : Env) (doc : TextDocument)
    (opts : CliOpts) (h : marpCoreOptionForCLI env doc = .ok opts) :
    opts.allowLocalFiles = true := by
  unfold marpCoreOptionForCLI at h
  cases hr : resolveThemesFrom env 0 env.themeOutcomes with
  | error e => rw [hr] at h; cases h
  | ok tf =>
    rw [hr] at h
    cases h
    rfl

/-- C5: for every document whose URI scheme is file and which is not
dirty, `createWorkFile` returns that exact filesystem path, performs no
write, and its release is the no-op action. -/
theorem c5_clean_file_reused (env : Env) (doc : TextDocument)
    (hs : doc.scheme = "file") (hd : doc.isDirty = false) :
    createWorkFile env doc = ([], .ok ⟨doc.fsPath, .noop⟩) := by
  unfold createWorkFile
  simp [hs, hd]

theorem c5_witness :
    cleanDoc.scheme = "file" ∧ cleanDoc.isDirty = false ∧
      createWorkFile baseEnv cleanDoc = ([], .ok ⟨cleanDoc.fsPath, .noop⟩) :=
  ⟨rfl, rfl, c5_clean_file_reused baseEnv cleanDoc rfl rfl⟩

/-- C3: evaluation of `runMarpCli` at the failing input. When the
`CHROME_PATH` entry is unset before the call, the restoring assignment in
the finally block stores the string "undefined" (the Node coercion of the
saved JS value `undefined`), so the entry after the call is set rather
than equal to its prior unset state; when the entry was set, it is
restored faithfully. -/
theorem c3_chrome_path_not_restored_when_unset :
    (runMarpCli c3Env none).envAfter = some "undefined" ∧
      (runMarpCli c3Env none).envAfter ≠ none ∧
      (runMarpCli c3Env (some "/usr/bin/google-chrome")).envAfter =
        some "/usr/bin/google-chrome" :=
  ⟨rfl, by decide, rfl⟩

/-- C7: the release of the work file returned by `createConfigFile`
attempts to delete the config file and runs the release of every resolved
theme work file, and the set of attempted deletions does not depend on
which individual deletions fail, so one failure never prevents the other
deletions from being attempted. -/
theorem c7_config_release_exhaustive (env : Env) (target : TextDocument)
    (arg : Option Bool) (delOk : String → Bool) (conf : ConfigWorkFile)
    (h : (createConfigFile env target arg).result = .ok conf) :
    (runCleanupAll delOk conf.cleanup).1 =
        conf.path :: conf.content.themeFiles.flatMap (fun w => cleanupAttempts w.cleanup) ∧
      (runCleanupAll delOk conf.cleanup).1 =
        (runCleanupAll (fun _ => true) conf.cleanup).1 := by
  unfold createConfigFile at h
  cases hm : marpCoreOptionForCLI env target with
  | error e => rw [hm] at h; cases h
  | ok opts =>
    rw [hm] at h
    by_cases hc : env.confWriteOk
    · simp only [if_pos hc] at h
      cases h
      refine ⟨?_, ?_⟩
      · rw [runCleanupAll_fst]
        simp [List.flatMap_cons, flatMap_map_cleanup, cleanupAttempts]
      · rw [runCleanupAll_fst, runCleanupAll_fst]
    · simp only [if_neg hc] at h
      cases h

theorem c7_witness :
    (runCleanupAll (fun _ => false) c7Conf.cleanup).1 =
        c7Conf.path ::
          c7Conf.content.themeFiles.flatMap (fun w => cleanupAttempts w.cleanup) ∧
      (runCleanupAll (fun _ => false) c7Conf.cleanup).1 =
        (runCleanupAll (fun _ => true) c7Conf.cleanup).1 :=
  c7_config_release_exhaustive c7WitnessEnv cleanDoc none (fun _ => false) c7Conf
    (by decide)

/-- C8: `runMarpCli` resolves exactly when the renderer exits with code
zero, and a non-zero exit code without a thrown error raises a
`MarpCLIError` whose message carries that exit code. -/
theorem c8_exit_code_classification (env : CliEnv) (c0 : Option String) :
    ((runMarpCli env c0).result = .ok () ↔ env.marpCliOutcome = .ok 0) ∧
      (∀ e : Int, env.marpCliOutcome = .ok e → e ≠ 0 →
        (runMarpCli env c0).result = .error (.marpCLIError (exitCodeMessage e))) := by
  cases h : env.marpCliOutcome with
  | ok n =>
    constructor
    · by_cases hn : n = 0 <;> simp [runMarpCli, h, hn]
    · intro e he hne
      cases he
      simp [runMarpCli, h, hne]
  | error err =>
    constructor
    · cases err <;> (simp [runMarpCli, h]; try (split <;> simp))
    · intro e he
      exact absurd he (by simp)

theorem c8_witness :
    (runMarpCli c8WitnessEnv none).result =
      .error (.marpCLIError (exitCodeMessage 3)) :=
  (c8_exit_code_classification c8WitnessEnv none).2 3 rfl (by decide)

/-- C9: when the renderer throws the structured browser-not-found error,
`runMarpCli` raises a `MarpCLIError` carrying the installation hint, whose
mention of the alternate browser Chromium happens exactly on the linux
platform (so only on Linux-family platforms); any other structured error
propagates unchanged. -/
theorem c9_browser_not_found_classification (env : CliEnv) (c0 : Option String) :
    (∀ msg, env.marpCliOutcome = .error (.cliError "NOT_FOUND_CHROMIUM" msg) →
      (runMarpCli env c0).result =
          .error (.marpCLIError (notFoundChromiumMessage env.platform)) ∧
        (mentionsChromium (notFoundChromiumMessage env.platform) = true ↔
          env.platform = "linux")) ∧
      (∀ e, env.marpCliOutcome = .error e →
        (∀ msg, e ≠ .cliError "NOT_FOUND_CHROMIUM" msg) →
        (runMarpCli env c0).result = .error e) := by
  constructor
  · intro msg h
    refine ⟨by simp [runMarpCli, h], ?_⟩
    by_cases hp : env.platform = "linux"
    · rw [hp]
      exact ⟨fun _ => rfl, fun _ => by decide⟩
    · simp only [notFoundChromiumMessage, if_neg hp]
      constructor
      · intro hm
        exact absurd hm (by decide)
      · intro hl
        exact absurd hl hp
  · intro e he hne
    cases e with
    | cliError code msg =>
      by_cases hcode : code = "NOT_FOUND_CHROMIUM"
      · exact absurd (by rw [hcode]) (hne msg)
      · simp [runMarpCli, he, hcode]
    | otherError name msg => simp [runMarpCli, he]
    | marpCLIError msg => simp [runMarpCli, he]

theorem c9_witness :
    (runMarpCli c9WitnessEnv none).result =
        .error (.marpCLIError (notFoundChromiumMessage "linux")) ∧
      mentionsChromium (notFoundChromiumMessage "linux") = true :=
  ⟨((c9_browser_not_found_classification c9WitnessEnv none).1 "no chrome" rfl).1,
    ((c9_browser_not_found_classification c9WitnessEnv none).1 "no chrome" rfl).2.mpr rfl⟩

/-- C10: `createConfigFile` consults only the target document, so the
extra options object passed by `doExport` is ignored entirely, and the
serialized config always carries `allowLocalFiles = true` regardless of
the proxy decision. -/
theorem c10_extra_argument_ignored (env : Env) (target : TextDocument)
    (a b : Option Bool) :
    createConfigFile env target a = createConfigFile env target b ∧
      ∀ conf, (createConfigFile env target a).result = .ok conf →
        conf.content.allowLocalFiles = true := by
  refine ⟨rfl, ?_⟩
  intro conf h
  unfold createConfigFile at h
  cases hm : marpCoreOptionForCLI env target with
  | error e => rw [hm] at h; cases h
  | ok opts =>
    rw [hm] at h
    by_cases hc : env.confWriteOk
    · simp only [if_pos hc] at h
      cases h
      exact marpCoreOptionForCLI_allowLocalFiles env target opts hm
    · simp only [if_neg hc] at h
      cases h

theorem c10_witness :
    c7Conf.content.allowLocalFiles = true :=
  (c10_extra_argument_ignored c7WitnessEnv cleanDoc (some false) (some true)).2
    c7Conf (by decide)

/-- C1 counterexample: with one resolved remote theme and a failing write
of the serialized config file, `createConfigFile` rejects after the theme
work file was created, `doExport` catches the rejection, and the release
of that theme work file is never invoked, refuting the claim that every
work file created during the invocation has its cleanup invoked exactly
once even when the config build throws. -/
theorem c1_counterexample :
    (doExport c1CexEnv "/out/deck.pdf" cleanDoc).themeFilesCreated ≠ [] ∧
      (doExport c1CexEnv "/out/deck.pdf" cleanDoc).themeCleanupRuns = 0 ∧
      ¬ c1ClaimAt c1CexEnv "/out/deck.pdf" cleanDoc := by
  refine ⟨by decide, by decide, ?_⟩
  intro h
  exact absurd (h.2.2.1 (by decide)) (by decide)

/-- C1 amended: during `doExport`, the input work file release and the
config work file release are each invoked exactly once when the work file
was created, the theme work file releases are each invoked exactly once
whenever the config build returned its work file (also when the renderer
invocation throws), and the proxy server is disposed exactly as often as
it was created; however, when the config build throws after resolving the
themes, the releases of the already created theme work files are never
invoked. -/
theorem c1_cleanup_amended (env : Env) (u : String) (d : TextDocument) :
    ((doExport env u d).inputFile.isSome = true →
        (doExport env u d).inputCleanupRuns = 1) ∧
      ((doExport env u d).confFile.isSome = true →
        (doExport env u d).confCleanupRuns = 1 ∧
          (doExport env u d).themeCleanupRuns = 1) ∧
      ((doExport env u d).confFile = none →
        (doExport env u d).themeCleanupRuns = 0) ∧
      (doExport env u d).proxyDisposals = (doExport env u d).proxyCreations := by
  unfold doExport
  dsimp only
  split
  · simp
  · split <;> split <;> simp

theorem c1_witness :
    (doExport baseEnv "/out/deck.pdf" cleanDoc).inputCleanupRuns = 1 ∧
      (doExport baseEnv "/out/deck.pdf" cleanDoc).proxyDisposals =
        (doExport baseEnv "/out/deck.pdf" cleanDoc).proxyCreations :=
  ⟨(c1_cleanup_amended baseEnv "/out/deck.pdf" cleanDoc).1 (by decide),
    (c1_cleanup_amended baseEnv "/out/deck.pdf" cleanDoc).2.2.2⟩

/-- C2 counterexample: an untitled document inside a resolvable workspace
folder, exported to PNG, satisfies the three spec conditions as the claim
words them (the chromium extension, a document not backed by a real local
file, a resolvable workspace folder), yet `doExport` creates no proxy
server, because the source also excludes the untitled scheme. -/
theorem c2_counterexample : ¬ c2ClaimAt baseEnv "/out/deck.png" untitledDoc := by
  intro h
  exact absurd (h.mpr ⟨by decide, by decide, by decide⟩) (by decide)

/-- C2 amended: during `doExport` the workspace proxy server is created if
and only if the export target extension is one of pdf, pptx, png, jpg,
jpeg, the document scheme is neither file nor untitled, and the document
belongs to a resolvable workspace folder; in particular an untitled
non-workspace document exported to PNG creates no proxy server. -/
theorem c2_proxy_condition_amended (env : Env) (u : String) (d : TextDocument) :
    (doExport env u d).proxyCreations = 1 ↔
      (chromiumRequiredExtensions.contains (extnameNoDot u) = true ∧
        d.scheme ≠ "file" ∧ d.scheme ≠ "untitled" ∧
        env.getWorkspaceFolder.isSome = true) := by
  have hpc : (doExport env u d).proxyCreations =
      (if (chromiumRequiredExtensions.contains (extnameNoDot u) &&
          !(["file", "untitled"].contains d.scheme)) &&
          env.getWorkspaceFolder.isSome then 1 else 0) := by
    unfold doExport
    dsimp only
    split
    · rfl
    · split <;> split <;> rfl
  rw [hpc]
  by_cases h1 : chromiumRequiredExtensions.contains (extnameNoDot u) = true <;>
    by_cases h2 : d.scheme = "file" <;>
    by_cases h3 : d.scheme = "untitled" <;>
    by_cases h4 : env.getWorkspaceFolder.isSome = true <;>
    simp [h1, h2, h3, h4]

theorem c2_witness :
    (doExport baseEnv "/out/deck.pdf" virtualDoc).proxyCreations = 1 :=
  (c2_proxy_condition_amended baseEnv "/out/deck.pdf" virtualDoc).mpr
    ⟨by decide, by decide, by decide, by decide⟩

/-- C4: for every dirty or non-file document, the fallback chain of
`createWorkFile` succeeds at the first writable candidate among the
same-directory temp path, the workspace-root temp path (present only when
the document workspace folder has the file scheme), and the OS temp path;
every attempted write carries the document text captured at call time,
failures before the last candidate are swallowed, a failure at the OS temp
path propagates as the rejection, and the release of the returned work
file unlinks exactly the file that was written. -/
theorem c4_fallback_chain (env : Env) (doc : TextDocument)
    (h : doc.isDirty = true ∨ doc.scheme ≠ "file") :
    (createWorkFile env doc).2 =
        (match (cwfCandidates env doc).find? env.writeOk with
          | some p => .ok ⟨p, .unlinkFile p⟩
          | none => .error ()) ∧
      (createWorkFile env doc).1 =
        (attemptedWrites env.writeOk (cwfCandidates env doc)).map
          (fun p => (p, doc.text)) := by
  have hfast : ¬(doc.scheme = "file" ∧ doc.isDirty = false) := by
    rcases h with h | h
    · rintro ⟨-, h2⟩
      rw [h] at h2
      cases h2
    · rintro ⟨h1, -⟩
      exact h h1
  unfold createWorkFile cwfCandidates attemptedWrites osTmpStep
  rw [if_neg hfast]
  by_cases h1 : env.writeOk (sameDirTmpPath env doc)
  · simp [h1, List.find?]
  · cases hw : env.getWorkspaceFolder with
    | none =>
      by_cases h3 : env.writeOk (osTmpPath env) <;>
        simp [h1, h3, List.find?, List.takeWhile]
    | some w =>
      by_cases h2 : w.scheme = "file"
      · by_cases h2w : env.writeOk (workspaceTmpPath env w)
        · simp [h1, h2, h2w, List.find?, List.takeWhile]
        · by_cases h3 : env.writeOk (osTmpPath env) <;>
            simp [h1, h2, h2w, h3, List.find?, List.takeWhile]
      · by_cases h3 : env.writeOk (osTmpPath env) <;>
          simp [h1, h2, h3, List.find?, List.takeWhile]

theorem c4_witness :
    (dirtyDoc.isDirty = true ∨ dirtyDoc.scheme ≠ "file") ∧
      (createWorkFile c4WitnessEnv dirtyDoc).2 =
        (match (cwfCandidates c4WitnessEnv dirtyDoc).find? c4WitnessEnv.writeOk with
          | some p => .ok ⟨p, .unlinkFile p⟩
          | none => .error ()) ∧
      (createWorkFile c4WitnessEnv dirtyDoc).1 =
        (attemptedWrites c4WitnessEnv.writeOk (cwfCandidates c4WitnessEnv dirtyDoc)).map
          (fun p => (p, dirtyDoc.text)) :=
  ⟨Or.inl rfl, c4_fallback_chain c4WitnessEnv dirtyDoc (Or.inl rfl)⟩

theorem countThemeErr_le (outs : List ThemeOutcome) :
    countThemeErr outs ≤ outs.length := by
  induction outs with
  | nil => exact Nat.le_refl 0
  | cons o rest ih =>
    cases o with
    | err e => exact Nat.succ_le_succ ih
    | ok t => exact Nat.le_succ_of_le ih

theorem resolveTheme_isOk (env : Env) (hw : ∀ i, env.themeWriteOk i = true)
    (i : Nat) (o : ThemeOutcome) : ∃ x, resolveTheme env i o = .ok x := by
  cases o with
  | err e => exact ⟨none, rfl⟩
  | ok t =>
    rcases t with ⟨ty, p, css⟩
    cases ty
    · exact ⟨some ⟨p, .noop⟩, rfl⟩
    · exact ⟨some ⟨themeTmpPath env i, .unlinkFile (themeTmpPath env i)⟩,
        by simp [resolveTheme, hw i]⟩

theorem resolveThemesAux_all_ok (env : Env) (hw : ∀ i, env.themeWriteOk i = true) :
    ∀ (outs : List ThemeOutcome) (i : Nat),
      (resolveThemesAux env i outs).all
        (fun r => match r with | .error _ => false | _ => true) = true := by
  intro outs
  induction outs with
  | nil => intro i; rfl
  | cons o rest ih =>
    intro i
    obtain ⟨x, hx⟩ := resolveTheme_isOk env hw i o
    simp [resolveThemesAux, hx, ih (i + 1)]

theorem resolveThemesFrom_eq_ok (env : Env) (hw : ∀ i, env.themeWriteOk i = true)
    (outs : List ThemeOutcome) (i : Nat) :
    resolveThemesFrom env i outs = .ok (createdThemesFrom env i outs) := by
  unfold resolveThemesFrom
  rw [if_pos (resolveThemesAux_all_ok env hw outs i)]

theorem createdThemesFrom_length (env : Env) (hw : ∀ i, env.themeWriteOk i = true) :
    ∀ (outs : List ThemeOutcome) (i : Nat),
      (createdThemesFrom env i outs).length = outs.length - countThemeErr outs := by
  intro outs
  induction outs with
  | nil => intro i; rfl
  | cons o rest ih =>
    intro i
    cases o with
    | err e =>
      show (createdThemesFrom env (i + 1) rest).length =
        (rest.length + 1) - (countThemeErr rest + 1)
      rw [Nat.succ_sub_succ]
      exact ih (i + 1)
    | ok t =>
      have hx : ∃ w, resolveTheme env i (.ok t) = .ok (some w) := by
        rcases t with ⟨ty, p, css⟩
        cases ty
        · exact ⟨⟨p, .noop⟩, rfl⟩
        · exact ⟨⟨themeTmpPath env i, .unlinkFile (themeTmpPath env i)⟩,
            by simp [resolveTheme, hw i]⟩
      obtain ⟨w, hx⟩ := hx
      have hcons : createdThemesFrom env i (.ok t :: rest) =
          w :: createdThemesFrom env (i + 1) rest := by
        simp [createdThemesFrom, resolveThemesAux, hx]
      rw [hcons, List.length_cons, ih (i + 1)]
      show (rest.length - countThemeErr rest) + 1 = (rest.length + 1) - countThemeErr rest
      exact (Nat.succ_sub (countThemeErr_le rest)).symm

theorem themeLogs_length (outs : List ThemeOutcome) :
    (themeLogs outs).length = countThemeErr outs := by
  induction outs with
  | nil => rfl
  | cons o rest ih =>
    cases o with
    | err e => exact congrArg (· + 1) ih
    | ok t => exact ih

theorem themeLogs_mem (e : String) : ∀ outs : List ThemeOutcome,
    ThemeOutcome.err e ∈ outs → e ∈ themeLogs outs := by
  intro outs
  induction outs with
  | nil => intro h; cases h
  | cons o rest ih =>
    intro h
    rcases List.mem_cons.mp h with heq | hmem
    · rw [← heq]
      exact List.mem_cons_self e (themeLogs rest)
    · cases o with
      | err e2 => exact List.mem_cons_of_mem e2 (ih hmem)
      | ok t => exact ih hmem

theorem string_append_left_cancel : ∀ {s t u : String}, s ++ t = s ++ u → t = u := by
  rintro ⟨ls⟩ ⟨lt⟩ ⟨lu⟩ h
  have h2 : ls ++ lt = ls ++ lu := congrArg String.data h
  exact congrArg String.mk (List.append_cancel_left h2)

theorem string_append_right_cancel : ∀ {s t u : String}, s ++ u = t ++ u → s = t := by
  rintro ⟨ls⟩ ⟨lt⟩ ⟨lu⟩ h
  have h2 : ls ++ lu = lt ++ lu := congrArg String.data h
  exact congrArg String.mk (List.append_cancel_right h2)

/-- C6: with every temp write succeeding, theme resolution never rejects;
when exactly one loadStyles promise fails, `marpCoreOptionForCLI` still
resolves, returns one theme work file fewer than the number of configured
references, and the failure is logged (every rejection reason reaches the
log); a file theme resolves to its own path with the no-op release, and a
remote theme resolves to a generated file in the OS temp directory whose
release unlinks exactly that file, with distinct invocations yielding
distinct paths whenever the drawn nanoid tokens are distinct. -/
theorem c6_theme_resolution_best_effort (env : Env) (doc : TextDocument)
    (hw : ∀ i, env.themeWriteOk i = true) :
    (countThemeErr env.themeOutcomes = 1 →
      ∃ o, marpCoreOptionForCLI env doc = .ok o ∧
        o.themeFiles.length + 1 = env.themeOutcomes.length ∧
        (themeLogs env.themeOutcomes).length = 1) ∧
      (∀ e, ThemeOutcome.err e ∈ env.themeOutcomes → e ∈ themeLogs env.themeOutcomes) ∧
      (∀ i p css, resolveTheme env i (.ok ⟨.File, p, css⟩) = .ok (some ⟨p, .noop⟩)) ∧
      (∀ i p css, resolveTheme env i (.ok ⟨.Remote, p, css⟩) =
        .ok (some ⟨themeTmpPath env i, .unlinkFile (themeTmpPath env i)⟩)) ∧
      (Function.Injective env.themeNanoid →
        ∀ i j, i ≠ j → themeTmpPath env i ≠ themeTmpPath env j) := by
  refine ⟨?_, fun e he => themeLogs_mem e env.themeOutcomes he, ?_, ?_, ?_⟩
  · intro h1
    have hN : 1 ≤ env.themeOutcomes.length := h1 ▸ countThemeErr_le env.themeOutcomes
    have hm : marpCoreOptionForCLI env doc = .ok
        { allowLocalFiles := true,
          html := if env.enableHtml then some true else none,
          extensionAttrs := if env.enableExtensionAttrs then some true else none,
          markdownBreaks := breaksFromSetting env.breaksSetting env.previewBreaks,
          themeSet := (createdThemesFrom env 0 env.themeOutcomes).map WorkFile.path,
          themeFiles := createdThemesFrom env 0 env.themeOutcomes } := by
      unfold marpCoreOptionForCLI
      rw [resolveThemesFrom_eq_ok env hw]
    refine ⟨_, hm, ?_, ?_⟩
    · show (createdThemesFrom env 0 env.themeOutcomes).length + 1 = _
      rw [createdThemesFrom_length env hw, h1, Nat.sub_add_cancel hN]
    · rw [themeLogs_length, h1]
  · intro i p css
    rfl
  · intro i p css
    simp [resolveTheme, hw i]
  · intro hinj i j hij heq
    have heq2 : (env.tmpdir ++ "/") ++
        ((".marp-vscode-cli-theme-" ++ env.themeNanoid i) ++ ".css") =
        (env.tmpdir ++ "/") ++
        ((".marp-vscode-cli-theme-" ++ env.themeNanoid j) ++ ".css") := heq
    have h3 := string_append_left_cancel
      (string_append_right_cancel (string_append_left_cancel heq2))
    exact hij (hinj h3)

theorem c6_witness :
    ∃ o, marpCoreOptionForCLI c6WitnessEnv cleanDoc = .ok o ∧
      o.themeFiles.length + 1 = c6WitnessEnv.themeOutcomes.length ∧
      (themeLogs c6WitnessEnv.themeOutcomes).length = 1 :=
  (c6_theme_resolution_best_effort c6WitnessEnv cleanDoc (fun _ => rfl)).1 rfl

end MarpVscode
